import Mathlib

/-! Module overview:
Verification of robotframework-tools core mechanisms

A shallow embedding of the parts of `robotframework-tools` that the spec's
claims are about:

* `src/robottools/library/keywords.py` — the keyword-decorator option chain
  (`KeywordDecoratorType.__init__`, `__getattr__`, `__call__`);
* `src/robottools/library/__init__.py` — `TestLibraryType` (the dynamic
  library transport surface guarded by `check_keywords`) and the
  `testlibrary` class factory (session-handler accessors);
* `src/robottools/remote/__init__.py` — `RemoteRobot` keyword-endpoint
  registration and constructor import ordering;
* `src/robotshell/magic.py` — `KeywordMagic.__call__` and
  `KeywordCellMagic.__call__` argument parsing.

Python strings are modelled as Lean `String`/`List Char`; Python
exceptions as `Except` error values; object identity (`is`) as explicit
reference numbers allocated by a counter; class-level mutable attributes as
explicitly passed global state.
-/

namespace RobotTools

/-! Section: Python string primitives

Embeddings of the exact `str` operations used by `robotshell/magic.py`:
`str.strip()` (whitespace both ends), `str.strip(chars)` (any of the given
characters, both ends), `str.split(sep)` (keep empty fields),
`str.split()` (whitespace runs, drop empty fields), `str.startswith(c)`. -/

/-- Python `str.isspace` characters that can appear in ASCII text:
space, tab, newline, carriage return, vertical tab, form feed. -/
def isPySpace (c : Char) : Bool :=
  c = ' ' || c = '\t' || c = '\n' || c = '\x0d' || c = '\x0b' || c = '\x0c'

/-- Strip characters satisfying `p` from both ends of a character list,
as Python `str.strip` does. -/
def pyStripList (p : Char → Bool) (s : List Char) : List Char :=
  ((s.dropWhile p).reverse.dropWhile p).reverse

/-- Python `s.strip()`: whitespace stripped from both ends. -/
def pyStrip (s : String) : String :=
  String.mk (pyStripList isPySpace s.toList)

/-- Python `s.strip(chars)`: any of the characters in `chars` stripped
from both ends. -/
def pyStripChars (chars : List Char) (s : String) : String :=
  String.mk (pyStripList (fun c => chars.contains c) s.toList)

/-- Python `s.split(sep)` on a single-character separator: splits at every
occurrence, keeping empty fields (`"a||b".split('|') = ["a", "", "b"]`). -/
def pySplitCharList (sep : Char) : List Char → List (List Char)
  | [] => [[]]
  | c :: rest =>
      match pySplitCharList sep rest with
      | [] => if c = sep then [[], []] else [[c]]
      | field :: fields =>
          if c = sep then [] :: field :: fields else (c :: field) :: fields

/-- Python `s.split(sep)` for a one-character `sep`, as `String`s. -/
def pySplitChar (sep : Char) (s : String) : List String :=
  (pySplitCharList sep s.toList).map String.mk

/-- Python `s.split()` (no argument): split on runs of whitespace,
dropping empty fields. -/
def pySplitWsList : List Char → List (List Char)
  | [] => []
  | c :: rest =>
      if isPySpace c then pySplitWsList rest
      else
        match pySplitWsList rest with
        | [] => [[c]]
        | field :: fields =>
            match rest with
            | [] => [[c]]
            | r :: _ => if isPySpace r then [c] :: field :: fields
                        else (c :: field) :: fields

/-- Python `s.split()` as `String`s. -/
def pySplitWs (s : String) : List String :=
  (pySplitWsList s.toList).map String.mk

/-- Python `s.startswith(c)` for a single character. -/
def pyStartsWith (c : Char) (s : String) : Bool :=
  match s.toList with
  | [] => false
  | c' :: _ => c' = c

/-! Section: robotshell/magic.py — KeywordMagic and KeywordCellMagic

`KeywordMagic.__call__(self, magics, args_str)`:

* empty `args_str` → `self.keyword()` (direct call, no arguments);
* `args_str` starting with `'['` or `'|'` →
  `args = [s.strip() for s in args_str.strip('[|]').split('|')]`,
  then `self.keyword.debug(*args)`;
* otherwise → `args = args_str.split()`, then `self.keyword.debug(*args)`.

`KeywordCellMagic.__call__`:
`args = [s.strip() for s in args_str.strip().split('\n')]`,
then `self.keyword(*args)` (direct call). -/

/-- The two invocation paths a keyword magic can take: a direct call of the
keyword (`self.keyword(*args)`) or the debug path
(`self.keyword.debug(*args)`), each with its positional arguments. -/
inductive Invocation : Type
  | direct (args : List String)
  | debug (args : List String)
  deriving Repr, DecidableEq

/-- Embedding of `KeywordMagic.__call__` from `src/robotshell/magic.py` lines 81-89. -/
def keywordMagicCall (argsStr : String) : Invocation :=
  if argsStr = "" then .direct []
  else if pyStartsWith '[' argsStr || pyStartsWith '|' argsStr then
    .debug ((pySplitChar '|' (pyStripChars ['[', '|', ']'] argsStr)).map pyStrip)
  else
    .debug (pySplitWs argsStr)

/-- Embedding of `KeywordCellMagic.__call__` from `src/robotshell/magic.py` lines 91-94. -/
def keywordCellMagicCall (argsStr : String) : Invocation :=
  .direct ((pySplitChar '\n' (pyStrip argsStr)).map pyStrip)

/-! Section: robottools/library/keywords.py — KeywordDecoratorType

The keyword decorator carries, at the level of its (dynamically generated)
class, a set of `option_<name>` static transformation methods, and at the
instance level a tuple of selected option names plus a reference to the
library's `keywords` mapping (`self.librarycls`, which `testlibrary` binds
to the `keywords` `KeywordsDict`).

* `__init__(self, librarycls, *options)` raises
  `InvalidKeywordOption(optionname)` for the first option name with no
  matching `option_` attribute on the class;
* `__getattr__(self, name)` raises `AttributeError(name)` if
  `option_<name>` is absent, else returns a new decorator instance with
  `name` **prepended** (`type(self)(self.librarycls, name, *self.options)`);
* `__call__(self, func, name=None)` iterates `self.options` in stored
  order, replacing `func` by `option(func)` at each step, then stores the
  result in the keywords mapping under `name or func.func_name`.

The decorator is polymorphic in `F`, the type of keyword method functions;
options are `F → F` transformations keyed by name. -/

/-- Exceptions raised by the decorator machinery:
`InvalidKeywordOption` (a `LookupError` subclass, from `__init__`) and
`AttributeError` (from `__getattr__`). -/
inductive DecoErr : Type
  | invalidKeywordOption (optionname : String)
  | attributeError (name : String)
  deriving Repr, DecidableEq

/-- A keyword-decorator instance: the `option_<name>` static methods of its
class, the target `keywords` mapping (`self.librarycls`), and the stored
option-name tuple (`self.options`, most recently added first). -/
structure KeywordDecorator (F : Type) : Type where
  optionImpls : List (String × (F → F))
  table : List (String × F)
  options : List String

/-- Lookup of the `option_<name>` static method on the decorator's class
(`getattr(type(self), 'option_' + name)`). -/
def lookupOption {F : Type} (d : KeywordDecorator F) (name : String) :
    Option (F → F) :=
  (d.optionImpls.find? (fun p => p.1 = name)).map Prod.snd

/-- Embedding of `KeywordDecoratorType.__init__` (keywords.py lines 57-63): checks every
option name against the class's `option_` attributes, raising
`InvalidKeywordOption` at the first unknown one. -/
def initDecorator {F : Type} (optionImpls : List (String × (F → F)))
    (table : List (String × F)) (options : List String) :
    Except DecoErr (KeywordDecorator F) :=
  match options.find? (fun o =>
      ((optionImpls.find? (fun p => p.1 = o)).map Prod.snd).isNone) with
  | some bad => .error (.invalidKeywordOption bad)
  | none => .ok ⟨optionImpls, table, options⟩

/-- Embedding of `KeywordDecoratorType.__getattr__` (keywords.py lines 85-91): unknown
option names raise `AttributeError(name)`; known ones yield a new decorator
instance with `name` prepended to the stored options. -/
def getattrOption {F : Type} (d : KeywordDecorator F) (name : String) :
    Except DecoErr (KeywordDecorator F) :=
  if (lookupOption d name).isSome then
    .ok ⟨d.optionImpls, d.table, name :: d.options⟩
  else
    .error (.attributeError name)

/-- Insert-or-overwrite into the `keywords` mapping
(`self.librarycls.keywords[key] = func`). -/
def insertKw {F : Type} (key : String) (f : F) :
    List (String × F) → List (String × F)
  | [] => [(key, f)]
  | (k, g) :: rest =>
      if k = key then (k, f) :: rest else (k, g) :: insertKw key f rest

/-- The wrapping loop of `KeywordDecoratorType.__call__` (keywords.py lines
100-102): `for optionname in self.options: func = decorator(func)`, with
`decorator = getattr(type(self), 'option_' + optionname)`. A missing
option would raise there; the stored invariant (enforced by `__init__` and
`__getattr__`) rules that out, so the identity fallback is dead code under
the well-formedness hypothesis used in the theorems. -/
def applyOptions {F : Type} (d : KeywordDecorator F) (func : F) : F :=
  d.options.foldl (fun f o => match lookupOption d o with
    | some t => t f
    | none => f) func

/-- Embedding of `KeywordDecoratorType.__call__` (keywords.py lines 93-104): wraps
`func` with every stored option, then stores the wrapped function under
`name or func.func_name`; returns the updated decorator (holding the
updated keywords mapping) together with the wrapped function. -/
def callDecorator {F : Type} (d : KeywordDecorator F) (func : F)
    (funcName : String) (name : Option String) :
    KeywordDecorator F × F :=
  let wrapped := applyOptions d func
  (⟨d.optionImpls, insertKw (name.getD funcName) wrapped d.table, d.options⟩,
   wrapped)

/-- A marker option that appends its marker to the wrapped function's
result, used to observe composition order (spec §8 property 2's
"options that append distinguishable markers"). -/
def appendMarker (m : String) (f : Unit → List String) :
    Unit → List String :=
  fun u => f u ++ [m]

/-- A marker option that records its marker *before* running the wrapped
function, so the first marker in the output is the outermost wrapper's:
used to observe which option's wrapper executes outermost. -/
def prependMarker (m : String) (f : Unit → List String) :
    Unit → List String :=
  fun u => m :: f u

/-! Section: robottools/library/__init__.py — TestLibraryType and testlibrary

`TestLibraryType` methods are wrapped by `check_keywords`, which raises a
`RuntimeError` ("has no instance-bound .keywords mapping") whenever
`self.keywords is type(self).keywords` — i.e. whenever the instance's
keywords mapping is still, by object identity, the class-level mapping,
meaning the base `__init__` was never run.  Object identity is modelled by
a `ref : Nat` carried by every keywords mapping; `TestLibraryType.__init__`
allocates a fresh ref from a counter. -/

/-- One entry of a `KeywordsDict`: the stored (lower_case) keyword name,
the keyword's doc string, its argument spec, and its behaviour. -/
structure KwEntry : Type where
  name : String
  doc : String
  argspec : List String
  fn : List String → String

/-- A `KeywordsDict` together with its object identity. -/
structure KwTable : Type where
  ref : Nat
  entries : List KwEntry

/-- Modelled from the spec: `moretools.camelize` (an external collaborator,
spec §4.1 NameCodec `decode`) — split the canonical key on `'_'`,
capitalize each word, join without separator. -/
def camelizeKey (key : String) : String :=
  String.join ((pySplitChar '_' key).map String.capitalize)

/-- The class-level data of a Test Library class generated by
`testlibrary`: its name, the class-level `keywords` mapping populated by
the decorator, the declared context handlers' default context names, and
the declared session handler class names. -/
structure LibClass : Type where
  name : String
  keywords : KwTable
  contextDefaults : List String
  sessionHandlerNames : List String

/-- A Test Library instance: its class, its `keywords` attribute (before
`__init__` this resolves to the class-level mapping; after `__init__` it
is an instance-bound copy with a fresh identity), and its `contexts`. -/
structure LibInstance : Type where
  cls : LibClass
  keywords : KwTable
  contexts : List String

/-- The `check_keywords` guard condition (library/__init__.py lines 43-56):
`self.keywords is type(self).keywords`. -/
def notReady (self : LibInstance) : Bool :=
  self.keywords.ref = self.cls.keywords.ref

/-- Errors of the dynamic-library surface: the `check_keywords`
`RuntimeError`, `KeyError` from `self.keywords[name]` lookup, and the
`AttributeError` of `__getattr__` (carrying the type name and the
requested name). -/
inductive LibErr : Type
  | notReadyError
  | keyError (name : String)
  | attributeError (clsName : String) (name : String)
  deriving Repr, DecidableEq

/-- Embedding of the `self.keywords[name]` lookup in the instance's keywords mapping. -/
def findKw (self : LibInstance) (name : String) : Option KwEntry :=
  self.keywords.entries.find? (fun e => e.name = name)

/-- Embedding of `TestLibraryType.get_keyword_names` (lines 67-73). -/
def get_keyword_names (self : LibInstance) : Except LibErr (List String) := do
  if notReady self then throw .notReadyError
  return self.keywords.entries.map (fun e => e.name)

/-- Embedding of `TestLibraryType.run_keyword` (lines 75-83); keyword arguments are
modelled positionally. -/
def run_keyword (self : LibInstance) (name : String) (args : List String) :
    Except LibErr String := do
  if notReady self then throw .notReadyError
  match findKw self name with
  | none => throw (.keyError name)
  | some kw => return kw.fn args

/-- Embedding of `TestLibraryType.get_keyword_documentation` (lines 85-98). -/
def get_keyword_documentation (self : LibInstance) (name : String) :
    Except LibErr String := do
  if notReady self then throw .notReadyError
  if name = "__intro__" then return ""
  if name = "__init__" then return ""
  match findKw self name with
  | none => throw (.keyError name)
  | some kw => return kw.doc

/-- Embedding of `TestLibraryType.get_keyword_arguments` (lines 100-107). -/
def get_keyword_arguments (self : LibInstance) (name : String) :
    Except LibErr (List String) := do
  if notReady self then throw .notReadyError
  match findKw self name with
  | none => throw (.keyError name)
  | some kw => return kw.argspec

/-- Embedding of `TestLibraryType.__getattr__` (lines 127-136): CamelCase access to the
bound keywords; unresolvable names raise `AttributeError` carrying the
type name and the requested name. -/
def getattrKeyword (self : LibInstance) (name : String) :
    Except LibErr KwEntry := do
  if notReady self then throw .notReadyError
  match self.keywords.entries.find? (fun e => camelizeKey e.name = name) with
  | none => throw (.attributeError self.cls.name name)
  | some kw => return kw

/-- Embedding of `TestLibraryType.__dir__` (lines 138-142): the CamelCase keyword
names. -/
def dirKeywords (self : LibInstance) : Except LibErr (List String) := do
  if notReady self then throw .notReadyError
  return self.keywords.entries.map (fun e => camelizeKey e.name)

/-- A counter allocating fresh object identities. -/
structure Alloc : Type where
  next : Nat

/-- Embedding of `TestLibraryType.__init__` (lines 109-125): sets the initially active
contexts from the declared handlers' defaults, and builds a *new*
`KeywordsDict` (fresh identity) holding one bound keyword per entry of the
class-level mapping. -/
def initInstance (cls : LibClass) (a : Alloc) : LibInstance × Alloc :=
  (⟨cls, ⟨a.next, cls.keywords.entries⟩, cls.contextDefaults⟩,
   ⟨a.next + 1⟩)

/-- An instance on which the base `__init__` was never run: attribute
lookup of `self.keywords` resolves to the class-level mapping itself. -/
def uninitInstance (cls : LibClass) : LibInstance :=
  ⟨cls, cls.keywords, []⟩

/-! Section: Session handler state (testlibrary, lines 212-235)

`testlibrary` stores each *handler class* in `session_handlers` and builds
the library-class accessors as closures over the class itself
(`h=handlercls`): the running-sessions property is
`lambda self, h=handlercls: h.sessions` and the current-session property
reads `h.session` — both read class-level handler state and ignore
`self`.  The handler class's mutable state is therefore modelled as a
world mapping handler class names to their state, passed explicitly. -/

/-- The class-level mutable state of one session handler class:
`h.sessions` (name → payload of running sessions) and `h.session`
(the currently active session, or none). -/
structure SessionState : Type where
  sessions : List (String × String)
  session : Option (String × String)
  deriving Repr, DecidableEq

/-- A handler-specific session error: `h.SessionError(msg)` — each handler
class owns its own `SessionError` type, modelled by tagging the error with
the handler class name. -/
structure SessionErr : Type where
  handler : String
  msg : String
  deriving Repr, DecidableEq

/-- The class-level state of all declared session handler classes, keyed
by handler class name. -/
def HandlerWorld : Type := List (String × SessionState)

/-- The current-session property built by `testlibrary`
(library/__init__.py lines 224-230): `if h.session is None: raise
h.SessionError("No active session.")`, else return `h.session`. -/
def currentSessionProp (handlerName : String) (st : SessionState) :
    Except SessionErr (String × String) :=
  match st.session with
  | none => .error ⟨handlerName, "No active session."⟩
  | some s => .ok s

/-- The running-sessions property built by `testlibrary` (lines 220-222):
`lambda self, h=handlercls: h.sessions` — reads the handler *class's*
sessions mapping and ignores `self`. -/
def observedSessions (_self : LibInstance) (w : HandlerWorld)
    (handlerName : String) : Option (List (String × String)) :=
  (w.find? (fun p => p.1 = handlerName)).map (fun p => p.2.sessions)

/-- The current-session view through an instance (lines 224-230, again a
closure over `h=handlercls`, ignoring `self`). -/
def observedCurrent (_self : LibInstance) (w : HandlerWorld)
    (handlerName : String) : Option (Option (String × String)) :=
  (w.find? (fun p => p.1 = handlerName)).map (fun p => p.2.session)

/-- Modelled from the spec: the session handler's `open` lifecycle
operation (the `SessionHandler` base class is not under src/; spec §4.6):
"`open(name, payload)`: inserts into `sessions`, fails with
DuplicateSessionError if `name` already present; sets `current = name`".
It acts on the handler class's own state, which is where `testlibrary`
(src lines 220-230) reads sessions from. -/
def openSession (handlerName : String) (st : SessionState)
    (name payload : String) : Except SessionErr SessionState :=
  if (st.sessions.find? (fun p => p.1 = name)).isSome then
    .error ⟨handlerName, "Duplicate session."⟩
  else
    .ok ⟨st.sessions ++ [(name, payload)], some (name, payload)⟩

/-- Opening a session through a library instance's generated
open-session keyword: the keyword is a closure over the handler *class*
(testlibrary lines 232-235 import `handlercls.keywords`), so it mutates
the class-level world and ignores which instance it was called through. -/
def openThroughInstance (_self : LibInstance) (w : HandlerWorld)
    (handlerName : String) (name payload : String) :
    Except SessionErr HandlerWorld :=
  match w.find? (fun p => p.1 = handlerName) with
  | none => .error ⟨handlerName, "No such handler."⟩
  | some (_, st) => do
      let st' ← openSession handlerName st name payload
      return w.map (fun p => if p.1 = handlerName then (p.1, st') else p)

/-! Section: robottools/remote/__init__.py — RemoteRobot

`RemoteRobot._register_keyword(name, keyword)` registers four remote
functions per keyword name: `name` itself, `name + '.__repr__'`,
`name + '.getdoc'` (a zero-argument lambda returning the doc), and
`name + '.__nonzero__'` (the zero-argument `lambda: True`).
`_register_functions` does this for every name in `dir(lib)` of every
wrapped library when `register_keywords` is set. -/

/-- A registered remote endpoint: the keyword itself, its repr, its
getdoc lambda, or its nonzero lambda.  The `getdoc` and `nonzero`
endpoints are the literal zero-parameter lambdas of
`_register_keyword` (remote/__init__.py lines 96-97). -/
inductive Endpoint : Type
  | keywordFn (name : String)
  | reprFn (name : String)
  | getdocFn (name : String)
  | nonzeroFn
  deriving Repr, DecidableEq

/-- A remote call result: a string value or a boolean. -/
inductive RVal : Type
  | str (s : String)
  | bool (b : Bool)
  deriving Repr, DecidableEq

/-- Remote invocation failures: calling a Python callable with the wrong
number of arguments raises `TypeError`. -/
inductive RemoteErr : Type
  | typeErrorArity
  deriving Repr, DecidableEq

/-- Invoking a registered endpoint with positional arguments.  `getdoc`
and `nonzero` are the zero-parameter lambdas `lambda: keyword.__doc__` and
`lambda: True`: any argument raises `TypeError`.  The keyword and repr
endpoints take the wrapped keyword's behaviour, abstracted here as
functions supplied by the environment. -/
def invokeEndpoint (kwBehaviour : String → List String → RVal)
    (kwRepr kwDoc : String → String) :
    Endpoint → List String → Except RemoteErr RVal
  | .keywordFn n, args => .ok (kwBehaviour n args)
  | .reprFn n, [] => .ok (.str (kwRepr n))
  | .reprFn _, _ :: _ => .error .typeErrorArity
  | .getdocFn n, [] => .ok (.str (kwDoc n))
  | .getdocFn _, _ :: _ => .error .typeErrorArity
  | .nonzeroFn, [] => .ok (.bool true)
  | .nonzeroFn, _ :: _ => .error .typeErrorArity

/-- Embedding of `RemoteRobot._register_keyword` (remote/__init__.py lines 91-99): the
four `(funcname, func)` pairs registered for one keyword name. -/
def registerKeywordEndpoints (name : String) : List (String × Endpoint) :=
  [(name, .keywordFn name),
   (name ++ ".__repr__", .reprFn name),
   (name ++ ".getdoc", .getdocFn name),
   (name ++ ".__nonzero__", .nonzeroFn)]

/-- Embedding of `RemoteRobot._register_library_keywords` (lines 101-103): registers
every keyword name of one wrapped library (`dir(lib)`). -/
def registerLibraryKeywords (libNames : List String) :
    List (String × Endpoint) :=
  (libNames.map registerKeywordEndpoints).flatten

/-- The keyword-registration part of `RemoteRobot._register_functions`
(lines 105-109): when `register_keywords` is set, every wrapped library's
keyword names are registered; otherwise none are.  (The base
`RobotRemoteServer._register_functions` and the introspection functions
are not per-keyword endpoints and are outside this model.) -/
def registerFunctions (registerKeywords : Bool)
    (libs : List (List String)) : List (String × Endpoint) :=
  if registerKeywords then (libs.map registerLibraryKeywords).flatten else []

/-! Section: RemoteRobot.__init__ import ordering (lines 74-89)

The constructor body, in source order: `TestRobot.__init__`,
`TestLibrary.__init__`, assign `register_keywords` and `introspection`,
`self.Import(lib)` for each constructor-supplied library, and only then
`self.allow_import = list(allow_import or [])`.  The constructor is
modelled as a state fold that also records, for each import performed, a
snapshot of the `allow_import` attribute at that moment (`none` meaning
the attribute is not yet assigned). -/

/-- The attribute state of a `RemoteRobot` under construction or
constructed: which libraries have been imported, and the `allow_import`
attribute (`none` = not yet assigned). -/
structure RemoteRobotState : Type where
  imported : List String
  allowImport : Option (List String)
  registerKeywords : Bool
  introspection : Bool
  deriving Repr, DecidableEq

/-- One import event of the constructor: the library name and the value of
the `allow_import` attribute at the moment of the import. -/
structure ImportEvent : Type where
  lib : String
  allowSnapshot : Option (List String)
  deriving Repr, DecidableEq

/-- Modelled from the spec: `TestRobot.Import` (robottools/testrobot, not
under src/) imports a library unconditionally; the allow-list gate of
spec §4.7 belongs to the bridge's runtime import keyword, not to
`TestRobot.Import` itself. -/
def testRobotImport (st : RemoteRobotState) (lib : String) :
    RemoteRobotState :=
  { st with imported := st.imported ++ [lib] }

/-- Embedding of `RemoteRobot.__init__` (remote/__init__.py lines 74-89): assigns
`register_keywords` and `introspection`, imports each constructor-supplied
library via `self.Import`, then assigns
`self.allow_import = list(allow_import or [])`.  Returns the final state
and the list of import events with their `allow_import` snapshots. -/
def remoteRobotInit (libraries : List String)
    (allow_import : Option (List String))
    (register_keywords introspection : Bool) :
    RemoteRobotState × List ImportEvent :=
  let st0 : RemoteRobotState :=
    ⟨[], none, register_keywords, introspection⟩
  let step := fun (acc : RemoteRobotState × List ImportEvent) (lib : String) =>
    (testRobotImport acc.1 lib, acc.2 ++ [⟨lib, acc.1.allowImport⟩])
  let afterImports := libraries.foldl step (st0, [])
  ({ afterImports.1 with
     allowImport := some ((allow_import.getD []).map id) },
   afterImports.2)

/-- Modelled from the spec: the bridge's runtime import gate (spec §4.7:
"an optional allow-list restricts which library identifiers may be
dynamically imported into the bridge at runtime; import of a
non-allow-listed identifier fails with ImportNotAllowedError"); the gated import
keyword lives in `robottools/remote/keywords.py`, not under src/.
It checks the assigned `allow_import` attribute. -/
def gatedImport (st : RemoteRobotState) (lib : String) :
    Except String RemoteRobotState :=
  match st.allowImport with
  | some allowed =>
      if allowed.contains lib then .ok (testRobotImport st lib)
      else .error "ImportNotAllowedError"
  | none => .error "AttributeError"

end RobotTools


/-! Section: Shared sample data used by witnesses and counterexamples -/

namespace RobotTools

/-- A sample keyword entry ("greet_user", public name "GreetUser"). -/
def greetEntry : KwEntry :=
  ⟨"greet_user", "Greets the given user.", ["name"],
   fun args => "Hello " ++ String.join args⟩

/-- A sample generated Test Library class: one keyword, no context
handlers, one session handler class named "SomeHandler"; its class-level
keywords mapping has identity 0. -/
def sampleCls : LibClass :=
  ⟨"TestLibrary", ⟨0, [greetEntry]⟩, [], ["SomeHandler"]⟩

/-- An initialized instance of `sampleCls` (base `__init__` run, fresh
keywords identity 1). -/
def sampleInst : LibInstance := (initInstance sampleCls ⟨1⟩).1

/-- A sample option transformation used as a placeholder implementation. -/
def idOption : (Unit → List String) → (Unit → List String) := id

end RobotTools

/-! Section: Claim theorems -/

namespace RobotTools

/-- C1, counterexample: the claim asserts that with options added in order
A then B (stored as `["B", "A"]`), the most-recently-added option B's
transformation executes as the *outermost* wrapper.  Instrumenting each
option to record its marker *before* running the function it wraps (so the
outermost wrapper's marker comes first at call time) and finalizing the
chain built by `__getattr__` accesses `.A.B`, the execution-entry trace is
`["A", "B"]`: the *oldest* option A is the outermost wrapper, not B. -/
theorem C1_counterexample :
    Except.map
        (fun d : KeywordDecorator (Unit → List String) =>
          ((callDecorator d (fun _ => []) "greet_user" none).2 ()).head?)
        ((getattrOption
            ⟨[("A", prependMarker "A"), ("B", prependMarker "B")], [], []⟩
            "A").bind (fun d => getattrOption d "B"))
      = .ok (some "A") ∧ some "A" ≠ some "B" := by
  exact ⟨rfl, by decide⟩

/-- C1, amended: adding option A then option B stores the options as
`["B", "A"]`, and finalization applies B's transformation to the raw
function *first*, then A's — so the most-recently-added option's
transformation is applied first and executes as the *innermost* wrapper
(the wrapped function is `tA (tB raw)`), and the wrapped result is stored
in the keywords mapping.  Consequently two options that append
distinguishable markers to the result yield marker order B,A. -/
theorem C1_option_composition :
    (∀ (F : Type) (tA tB : F → F) (table : List (String × F)) (raw : F)
       (fname : String),
      ∃ dA dB : KeywordDecorator F,
        getattrOption ⟨[("A", tA), ("B", tB)], table, []⟩ "A" = .ok dA ∧
        getattrOption dA "B" = .ok dB ∧
        dB.options = ["B", "A"] ∧
        (callDecorator dB raw fname none).2 = tA (tB raw) ∧
        (callDecorator dB raw fname none).1.table
          = insertKw fname (tA (tB raw)) table) ∧
    Except.map
        (fun d : KeywordDecorator (Unit → List String) =>
          (callDecorator d (fun _ => []) "greet_user" none).2 ())
        ((getattrOption
            ⟨[("A", appendMarker "A"), ("B", appendMarker "B")], [], []⟩
            "A").bind (fun d => getattrOption d "B"))
      = .ok ["B", "A"] := by
  constructor
  · intro F tA tB table raw fname
    exact ⟨_, _, rfl, rfl, rfl, rfl, rfl⟩
  · rfl

/-- C3, counterexample: the claim asserts that adding an unregistered
option by attribute access fails with InvalidOptionError
(`InvalidKeywordOption`).  On the code, `__getattr__` raises plain
`AttributeError(name)` (keywords.py lines 89-90); `InvalidKeywordOption`
is only raised by `__init__`.  Concretely, accessing option
"nonexistent" on a decorator with one registered option yields
`AttributeError "nonexistent"`, which is not
`InvalidKeywordOption "nonexistent"`. -/
theorem C3_counterexample :
    getattrOption
        (⟨[("unicode_to_str", idOption)], [("greet_user", fun _ => [])], []⟩ :
          KeywordDecorator (Unit → List String)) "nonexistent"
      = .error (.attributeError "nonexistent") ∧
    DecoErr.attributeError "nonexistent"
      ≠ DecoErr.invalidKeywordOption "nonexistent" := by
  exact ⟨rfl, by decide⟩

/-- C3, amended: adding an option name that is not registered on the
decorator's type by attribute access fails with `AttributeError` (while
the constructor path `__init__` raises `InvalidKeywordOption` for such a
name), and the library's keyword table is left unchanged: attribute
access never modifies the table, whether it succeeds or fails. -/
theorem C3_unknown_option {F : Type} (d : KeywordDecorator F)
    (name : String) (h : lookupOption d name = none) :
    getattrOption d name = .error (.attributeError name) ∧
    initDecorator d.optionImpls d.table [name]
      = .error (.invalidKeywordOption name) ∧
    ∀ (n : String) (d' : KeywordDecorator F),
      getattrOption d n = .ok d' → d'.table = d.table := by
  refine ⟨?_, ?_, ?_⟩
  · simp only [getattrOption, h, Option.isSome_none, Bool.false_eq_true,
      if_false]
  · have h' : d.optionImpls.find? (fun p => p.1 = name) = none := by
      cases hf : d.optionImpls.find? (fun p => p.1 = name) with
      | none => rfl
      | some v => simp [lookupOption, hf] at h
    simp [initDecorator, h']
  · intro n d' hd
    by_cases hn : (lookupOption d n).isSome
    · simp only [getattrOption, hn, if_true] at hd
      cases hd
      rfl
    · simp [getattrOption, hn] at hd

/-- C3, witness: applying `C3_unknown_option` to a concrete decorator
with one registered option and the unregistered name "nonexistent". -/
theorem C3_witness :
    lookupOption
        (⟨[("unicode_to_str", idOption)], [], []⟩ :
          KeywordDecorator (Unit → List String)) "nonexistent" = none ∧
    getattrOption
        (⟨[("unicode_to_str", idOption)], [], []⟩ :
          KeywordDecorator (Unit → List String)) "nonexistent"
      = .error (.attributeError "nonexistent") :=
  ⟨rfl,
   (C3_unknown_option ⟨[("unicode_to_str", idOption)], [], []⟩
     "nonexistent" rfl).1⟩


/-- C2, counterexample: the claim asserts that opening a session through
one instance does not change the sessions mapping or current-session
pointer observed through the other instance.  On the code, `testlibrary`
exposes session state from the handler *class* (`h.sessions`, `h.session`
with `h = handlercls`), so the state is shared: starting from an empty
handler world, opening session "a" through the first instance makes the
second instance observe sessions `[("a", "p1")]` and current session
`("a", "p1")`, where before it observed `[]` and no current session. -/
theorem C2_counterexample :
    Except.map
        (fun w => (observedSessions (initInstance sampleCls ⟨2⟩).1 w
                     "SomeHandler",
                   observedCurrent (initInstance sampleCls ⟨2⟩).1 w
                     "SomeHandler"))
        (openThroughInstance sampleInst [("SomeHandler", ⟨[], none⟩)]
          "SomeHandler" "a" "p1")
      = .ok (some [("a", "p1")], some (some ("a", "p1"))) ∧
    observedSessions (initInstance sampleCls ⟨2⟩).1
        [("SomeHandler", ⟨[], none⟩)] "SomeHandler" = some [] ∧
    observedCurrent (initInstance sampleCls ⟨2⟩).1
        [("SomeHandler", ⟨[], none⟩)] "SomeHandler" = some none ∧
    (some [("a", "p1")] : Option (List (String × String))) ≠ some [] ∧
    (some (some ("a", "p1")) : Option (Option (String × String)))
      ≠ some none := by
  exact ⟨rfl, rfl, rfl, by decide, by decide⟩

/-- C2, amended: instantiating a library template twice produces two
instances whose keyword tables are distinct objects (distinct identities,
also distinct from the class-level table) with identical name sets; but
session-handler state is *not* per-instance: it is class-level state of
each handler class, so every instance observes the very same sessions
mapping and current-session pointer, and a session opened or closed
through one instance is seen through the other. -/
theorem C2_two_instances (cls : LibClass) (a : Alloc)
    (h : cls.keywords.ref < a.next) :
    (initInstance cls a).1.keywords.ref
      ≠ (initInstance cls (initInstance cls a).2).1.keywords.ref ∧
    (initInstance cls a).1.keywords.ref ≠ cls.keywords.ref ∧
    (initInstance cls (initInstance cls a).2).1.keywords.ref
      ≠ cls.keywords.ref ∧
    (initInstance cls a).1.keywords.entries.map KwEntry.name
      = (initInstance cls (initInstance cls a).2).1.keywords.entries.map
          KwEntry.name ∧
    ∀ (w : HandlerWorld) (hn : String) (i j : LibInstance),
      observedSessions i w hn = observedSessions j w hn ∧
      observedCurrent i w hn = observedCurrent j w hn := by
  refine ⟨?_, ?_, ?_, rfl, ?_⟩
  · simp only [initInstance]
    omega
  · simp only [initInstance]
    omega
  · simp only [initInstance]
    omega
  · intro w hn i j
    exact ⟨rfl, rfl⟩

/-- C2, witness: applying `C2_two_instances` to the sample class (table
identity 0) and a fresh allocator starting at 1. -/
theorem C2_witness :
    sampleCls.keywords.ref < (⟨1⟩ : Alloc).next ∧
    (initInstance sampleCls ⟨1⟩).1.keywords.ref
      ≠ (initInstance sampleCls (initInstance sampleCls ⟨1⟩).2).1.keywords.ref :=
  ⟨by decide, (C2_two_instances sampleCls ⟨1⟩ (by decide)).1⟩

/-- C4: on an instance whose keywords mapping is still identity-equal to
its class's (the base `__init__` was not run), each of the four transport
calls — `get_keyword_names`, `run_keyword`, `get_keyword_documentation`,
`get_keyword_arguments` — as well as attribute-style keyword access
(`__getattr__`) and `__dir__`, fails with the `check_keywords`
not-ready `RuntimeError` instead of returning a result. -/
theorem C4_not_ready (inst : LibInstance)
    (h : inst.keywords.ref = inst.cls.keywords.ref)
    (name : String) (args : List String) :
    get_keyword_names inst = .error .notReadyError ∧
    run_keyword inst name args = .error .notReadyError ∧
    get_keyword_documentation inst name = .error .notReadyError ∧
    get_keyword_arguments inst name = .error .notReadyError ∧
    getattrKeyword inst name = .error .notReadyError ∧
    dirKeywords inst = .error .notReadyError := by
  have hn : notReady inst = true := by simp [notReady, h]
  refine ⟨?_, ?_, ?_, ?_, ?_, ?_⟩ <;>
    · simp [get_keyword_names, run_keyword, get_keyword_documentation,
        get_keyword_arguments, getattrKeyword, dirKeywords, hn]
      try rfl

/-- C4, witness: applying `C4_not_ready` to an uninitialized instance of
the sample class, whose keywords attribute still resolves to the
class-level mapping. -/
theorem C4_witness :
    (uninitInstance sampleCls).keywords.ref
      = (uninitInstance sampleCls).cls.keywords.ref ∧
    run_keyword (uninitInstance sampleCls) "greet_user" ["World"]
      = .error .notReadyError ∧
    get_keyword_names (uninitInstance sampleCls) = .error .notReadyError :=
  ⟨rfl, (C4_not_ready (uninitInstance sampleCls) rfl "greet_user"
          ["World"]).2.1,
   (C4_not_ready (uninitInstance sampleCls) rfl "greet_user" ["World"]).1⟩

/-- C6: the current-session accessor generated by `testlibrary` fails with
the handler's own SessionError carrying the message "No active session."
when the handler's current-session slot is unset, and returns the current
session otherwise. -/
theorem C6_current_session (hname : String) (st : SessionState) :
    (st.session = none →
      currentSessionProp hname st = .error ⟨hname, "No active session."⟩) ∧
    ∀ s : String × String, st.session = some s →
      currentSessionProp hname st = .ok s := by
  constructor
  · intro h
    simp [currentSessionProp, h]
  · intro s h
    simp [currentSessionProp, h]

/-- C6, witness: applying `C6_current_session` to an empty handler state
(accessor fails) and to a state with an active session (accessor returns
it). -/
theorem C6_witness :
    (⟨[], none⟩ : SessionState).session = none ∧
    currentSessionProp "SomeHandler" ⟨[], none⟩
      = .error ⟨"SomeHandler", "No active session."⟩ ∧
    currentSessionProp "SomeHandler" ⟨[("a", "p")], some ("a", "p")⟩
      = .ok ("a", "p") :=
  ⟨rfl, (C6_current_session "SomeHandler" ⟨[], none⟩).1 rfl,
   (C6_current_session "SomeHandler" ⟨[("a", "p")], some ("a", "p")⟩).2
     ("a", "p") rfl⟩

/-- C7: on an initialized instance, `get_keyword_documentation` returns
the empty string for the two synthetic names `__intro__` and `__init__`
regardless of which keywords are registered; for every other name it
returns the stored keyword's doc string, and fails with the lookup error
(`KeyError`, the spec's NotFoundError) when the name is absent. -/
theorem C7_documentation (inst : LibInstance)
    (h : notReady inst = false) :
    get_keyword_documentation inst "__intro__" = .ok "" ∧
    get_keyword_documentation inst "__init__" = .ok "" ∧
    (∀ (name : String) (kw : KwEntry),
      name ≠ "__intro__" → name ≠ "__init__" →
      findKw inst name = some kw →
      get_keyword_documentation inst name = .ok kw.doc) ∧
    (∀ name : String,
      name ≠ "__intro__" → name ≠ "__init__" →
      findKw inst name = none →
      get_keyword_documentation inst name = .error (.keyError name)) := by
  refine ⟨?_, ?_, ?_, ?_⟩
  · simp [get_keyword_documentation, h]
    rfl
  · simp [get_keyword_documentation, h]
    rfl
  · intro name kw h1 h2 hfind
    simp [get_keyword_documentation, h, h1, h2, hfind]
    rfl
  · intro name h1 h2 hfind
    simp [get_keyword_documentation, h, h1, h2, hfind]
    rfl

/-- C7, witness: applying `C7_documentation` to the initialized sample
instance, at the synthetic name `__intro__`, the registered keyword
`greet_user`, and the absent name `missing`. -/
theorem C7_witness :
    notReady sampleInst = false ∧
    get_keyword_documentation sampleInst "__intro__" = .ok "" ∧
    get_keyword_documentation sampleInst "greet_user"
      = .ok "Greets the given user." ∧
    get_keyword_documentation sampleInst "missing"
      = .error (.keyError "missing") := by
  have h := C7_documentation sampleInst rfl
  exact ⟨rfl, h.1,
    (h.2.2.1 "greet_user" greetEntry (by decide) (by decide) rfl).trans rfl,
    h.2.2.2 "missing" (by decide) (by decide) rfl⟩


/-- Helper: keyword registration contributes exactly four endpoints per
keyword name, so the registry built with registration mode on has length
four times the total number of keyword names. -/
theorem registerFunctions_true_length (libs : List (List String)) :
    (registerFunctions true libs).length = 4 * (libs.map List.length).sum := by
  induction libs with
  | nil => rfl
  | cons l ls ih =>
    have hl : (registerLibraryKeywords l).length = 4 * l.length := by
      induction l with
      | nil => rfl
      | cons x xs ihx =>
        simp [registerLibraryKeywords, registerKeywordEndpoints] at ihx ⊢
        omega
    have hcons : registerFunctions true (l :: ls)
        = registerLibraryKeywords l ++ registerFunctions true ls := by
      simp [registerFunctions]
    rw [hcons, List.length_append, hl, ih]
    simp
    ring

/-- C5, counterexample: the claim asserts that invoking the
`<name>.__nonzero__` endpoint returns true *regardless of arguments*.
The registered endpoint is the zero-parameter `lambda: True`
(remote/__init__.py line 97), so invoking it with any argument raises
`TypeError` instead of returning true: with one argument `"x"` the call
fails with an arity error. -/
theorem C5_counterexample :
    ("GreetUser.__nonzero__", Endpoint.nonzeroFn)
      ∈ registerFunctions true [["GreetUser"]] ∧
    invokeEndpoint (fun _ _ => .str "") (fun _ => "") (fun _ => "")
        .nonzeroFn ["x"] = .error .typeErrorArity ∧
    (Except.error RemoteErr.typeErrorArity : Except RemoteErr RVal)
      ≠ .ok (.bool true) := by
  exact ⟨by decide, rfl, fun h => Except.noConfusion h⟩

/-- C5, amended: with keyword registration enabled, for every keyword name
N of every wrapped library the bridge registers exactly the four remote
endpoints `N`, `N.__repr__`, `N.getdoc` and `N.__nonzero__` (four
registrations per keyword name, nothing else from the keyword-registration
path), and invoking the `N.__nonzero__` endpoint *with no arguments*
returns true (the endpoint is the zero-parameter `lambda: True`, so it
accepts no arguments). -/
theorem C5_registered_endpoints (libs : List (List String))
    (lib : List String) (name : String)
    (h1 : lib ∈ libs) (h2 : name ∈ lib) :
    (name, Endpoint.keywordFn name) ∈ registerFunctions true libs ∧
    (name ++ ".__repr__", Endpoint.reprFn name)
      ∈ registerFunctions true libs ∧
    (name ++ ".getdoc", Endpoint.getdocFn name)
      ∈ registerFunctions true libs ∧
    (name ++ ".__nonzero__", Endpoint.nonzeroFn)
      ∈ registerFunctions true libs ∧
    (registerFunctions true libs).length
      = 4 * (libs.map List.length).sum ∧
    (∀ (kb : String → List String → RVal) (kr kd : String → String),
      invokeEndpoint kb kr kd .nonzeroFn [] = .ok (.bool true)) := by
  have hmem : ∀ e ∈ registerKeywordEndpoints name,
      e ∈ registerFunctions true libs := by
    intro e he
    have h3 : e ∈ registerLibraryKeywords lib := by
      unfold registerLibraryKeywords
      exact List.mem_flatten.mpr
        ⟨registerKeywordEndpoints name, List.mem_map.mpr ⟨name, h2, rfl⟩, he⟩
    show e ∈ (libs.map registerLibraryKeywords).flatten
    exact List.mem_flatten.mpr
      ⟨registerLibraryKeywords lib, List.mem_map.mpr ⟨lib, h1, rfl⟩, h3⟩
  refine ⟨hmem _ ?_, hmem _ ?_, hmem _ ?_, hmem _ ?_,
    registerFunctions_true_length libs, fun kb kr kd => rfl⟩ <;>
    simp [registerKeywordEndpoints]

/-- C5, witness: applying `C5_registered_endpoints` to one wrapped library
exposing the single keyword "GreetUser". -/
theorem C5_witness :
    (["GreetUser"] : List String) ∈ [["GreetUser"]] ∧
    ("GreetUser" : String) ∈ ["GreetUser"] ∧
    ("GreetUser", Endpoint.keywordFn "GreetUser")
      ∈ registerFunctions true [["GreetUser"]] ∧
    invokeEndpoint (fun _ _ => .str "") (fun _ => "") (fun _ => "")
        .nonzeroFn [] = .ok (.bool true) := by
  have h := C5_registered_endpoints [["GreetUser"]] ["GreetUser"]
    "GreetUser" (by decide) (by decide)
  exact ⟨by decide, by decide, h.1,
    h.2.2.2.2.2 (fun _ _ => .str "") (fun _ => "") (fun _ => "")⟩

/-- C8: for every non-empty argument text, a keyword line magic starting
with `'['` or `'|'` is split on `'|'` (after stripping leading and trailing
`'['`, `'|'`, `']'` characters) into whitespace-trimmed tokens passed as
positional arguments to the keyword's debug invocation; otherwise the text
is split on whitespace and passed likewise; and every cell-magic text
block is split on newlines into trimmed positional arguments for the
direct invocation. -/
theorem C8_argument_parsing :
    (∀ s : String, s ≠ "" →
      ((pyStartsWith '[' s || pyStartsWith '|' s) = true →
        keywordMagicCall s
          = .debug ((pySplitChar '|'
              (pyStripChars ['[', '|', ']'] s)).map pyStrip)) ∧
      ((pyStartsWith '[' s || pyStartsWith '|' s) = false →
        keywordMagicCall s = .debug (pySplitWs s))) ∧
    ∀ t : String, keywordCellMagicCall t
      = .direct ((pySplitChar '\n' (pyStrip t)).map pyStrip) := by
  refine ⟨?_, fun t => rfl⟩
  intro s hs
  constructor
  · intro hstart
    simp [keywordMagicCall, hs, hstart]
  · intro hstart
    simp [keywordMagicCall, hs, hstart]

/-- C8, witness: applying `C8_argument_parsing` to a pipe-delimited text,
a whitespace-delimited text, and a multi-line cell block. -/
theorem C8_witness :
    ("[ a | b ]" : String) ≠ "" ∧
    (pyStartsWith '[' "[ a | b ]" || pyStartsWith '|' "[ a | b ]") = true ∧
    keywordMagicCall "[ a | b ]" = .debug ["a", "b"] ∧
    ("x  y" : String) ≠ "" ∧
    (pyStartsWith '[' "x  y" || pyStartsWith '|' "x  y") = false ∧
    keywordMagicCall "x  y" = .debug ["x", "y"] ∧
    keywordCellMagicCall " a \n b b \n c " = .direct ["a", "b b", "c"] := by
  have h := C8_argument_parsing
  refine ⟨by decide, by decide,
    ((h.1 "[ a | b ]" (by decide)).1 (by decide)).trans (by decide),
    by decide, by decide,
    ((h.1 "x  y" (by decide)).2 (by decide)).trans (by decide),
    (h.2 " a \n b b \n c ").trans (by decide)⟩

/-- Helper: the constructor's import loop appends the libraries to the
list of imported libraries, leaves `allow_import` untouched, and records one import
event per library carrying the `allow_import` snapshot at loop entry. -/
theorem remoteInit_fold (libs : List String) (st : RemoteRobotState)
    (evs : List ImportEvent) :
    libs.foldl
        (fun acc lib =>
          (testRobotImport acc.1 lib, acc.2 ++ [⟨lib, acc.1.allowImport⟩]))
        (st, evs)
      = ({ st with imported := st.imported ++ libs },
         evs ++ libs.map (fun l => ⟨l, st.allowImport⟩)) := by
  induction libs generalizing st evs with
  | nil => simp
  | cons x xs ih =>
    simp only [List.foldl_cons, List.map_cons]
    rw [ih]
    simp [testRobotImport]

/-- C9: the `RemoteRobot` constructor imports every library named in its
`libraries` argument *before* the `allow_import` attribute is assigned
(every import event carries an unassigned `allow_import` snapshot), so
constructor-supplied libraries are imported without being checked against
the allow-list — indeed with `allow_import=None` the final allow-list is
empty and the runtime import gate rejects *every* name, yet the
constructor-supplied libraries are all imported. -/
theorem C9_ctor_import_order (libraries : List String)
    (allow : Option (List String)) (rk intr : Bool) :
    (remoteRobotInit libraries allow rk intr).1.imported = libraries ∧
    (remoteRobotInit libraries allow rk intr).1.allowImport
      = some (allow.getD []) ∧
    (remoteRobotInit libraries allow rk intr).2
      = libraries.map (fun l => ⟨l, none⟩) ∧
    (∀ e ∈ (remoteRobotInit libraries allow rk intr).2,
      e.allowSnapshot = none) ∧
    (∀ lib : String,
      gatedImport (remoteRobotInit libraries none rk intr).1 lib
        = .error "ImportNotAllowedError") := by
  have hfold := remoteInit_fold libraries ⟨[], none, rk, intr⟩ []
  refine ⟨?_, ?_, ?_, ?_, ?_⟩
  · simp [remoteRobotInit, hfold]
  · simp [remoteRobotInit, hfold]
  · simp [remoteRobotInit, hfold]
  · intro e he
    simp [remoteRobotInit, hfold] at he
    obtain ⟨l, _, rfl⟩ := he
    rfl
  · intro lib
    have hfold2 := remoteInit_fold libraries ⟨[], none, rk, intr⟩ []
    simp [remoteRobotInit, hfold2, gatedImport]

/-- C9, witness: applying `C9_ctor_import_order` to two
constructor-supplied libraries and `allow_import=None`. -/
theorem C9_witness :
    (⟨"LibA", none⟩ : ImportEvent)
      ∈ (remoteRobotInit ["LibA", "LibB"] none true true).2 ∧
    (remoteRobotInit ["LibA", "LibB"] none true true).1.imported
      = ["LibA", "LibB"] ∧
    (remoteRobotInit ["LibA", "LibB"] none true true).1.allowImport
      = some [] ∧
    gatedImport (remoteRobotInit ["LibA", "LibB"] none true true).1 "LibC"
      = .error "ImportNotAllowedError" := by
  have h := C9_ctor_import_order ["LibA", "LibB"] none true true
  exact ⟨by decide, h.1, h.2.1, h.2.2.2.2 "LibC"⟩

/-- C10: invoking a keyword line magic with an empty argument string calls
the underlying keyword directly with zero arguments (the normal call
path `self.keyword()`), bypassing both the pipe/whitespace parsing and
the debug invocation path. -/
theorem C10_empty_args_direct : keywordMagicCall "" = .direct [] := by
  rfl

end RobotTools
